import Mathlib

/-
Verification of the watermark-compositing pipeline of AddWatermark.py
(function add_image_watermark and the batch loop WatermarkApp.add_watermark).

The numeric parts of the pipeline are embedded over ℚ/ℤ/ℕ: Python floats
appearing here only ever hold small rationals (opacity, aspect ratios), and
every claim's counterexample below is robust to floating-point rounding
because the compared values differ by a full integer unit.  Python's int()
truncation toward zero is `pyInt`, Python's banker-rounding round() is
`pyRound`, and Python's floor division // is `Int.fdiv`.
-/

namespace AddWatermark

/-- Python int(q): truncation toward zero. -/
def pyInt (q : ℚ) : ℤ := if 0 ≤ q then ⌊q⌋ else -⌊-q⌋

/-- Python round(q): round half to even (banker's rounding), as Python 3 does.
This is the reading of the spec's `round(...)`; note that at every point where
a claim is refuted below, round-half-up would give the same value. -/
def pyRound (q : ℚ) : ℤ :=
  if q - ⌊q⌋ < 1/2 then ⌊q⌋
  else if 1/2 < q - ⌊q⌋ then ⌊q⌋ + 1
  else if ⌊q⌋ % 2 = 0 then ⌊q⌋ else ⌊q⌋ + 1

/-- Clamp an integer to the 8-bit range 0..255 (the image library stores the
result of a point() lookup as an 8-bit channel value). -/
def clamp8 (z : ℤ) : ℤ := max 0 (min 255 z)

/-- AddWatermark.py line 68: `alpha.point(lambda x: int(x * opacity))`.
One 8-bit alpha sample `a` is mapped to int(a * opacity), stored as an
8-bit channel value. -/
def adjusted_alpha (opacity : ℚ) (a : ℕ) : ℤ := clamp8 (pyInt ((a : ℚ) * opacity))

/-- AddWatermark.py lines 60-63: `aspect_ratio = width / height;
if target_width: target_height = int(target_width / aspect_ratio); resize`.
Returns the (width, height) of the base image after the optional resize. -/
def resize_base (w h target_width : ℕ) : ℤ × ℤ :=
  if target_width ≠ 0 then
    ((target_width : ℤ), pyInt ((target_width : ℚ) / ((w : ℚ) / (h : ℚ))))
  else ((w : ℤ), (h : ℤ))

/-- AddWatermark.py line 72:
`watermark_width = int(watermark_ratio * (target_width if target_width else base_image.width))`. -/
def watermark_width (ratio : ℚ) (target_width base_w : ℕ) : ℤ :=
  pyInt (ratio * ((if target_width ≠ 0 then target_width else base_w : ℕ) : ℚ))

/-- AddWatermark.py line 73:
`watermark_height = int(watermark_width * (watermark.height / watermark.width))`,
where src_w × src_h is the size of the decoded watermark asset. -/
def watermark_height (wm_w : ℤ) (src_w src_h : ℕ) : ℤ :=
  pyInt ((wm_w : ℚ) * ((src_h : ℚ) / (src_w : ℚ)))

/-- AddWatermark.py lines 77-84: the position dictionary and
`position_map.get(position, position_map["左上"])`.  Python's `//` is floor
division, i.e. `Int.fdiv`. -/
def position_map (position : String) (base_w base_h wm_w wm_h : ℤ) : ℤ × ℤ :=
  if position = "左上" then (10, 10)
  else if position = "右上" then (base_w - wm_w - 10, 10)
  else if position = "右下" then (base_w - wm_w - 10, base_h - wm_h - 10)
  else if position = "左下" then (10, base_h - wm_h - 10)
  else if position = "居中" then ((base_w - wm_w).fdiv 2, (base_h - wm_h).fdiv 2)
  else (10, 10)

/-- The watermark's bounding box, anchored at (x, y) with size wm_w × wm_h,
lies fully inside a base image of size base_w × base_h. -/
def insideBounds (base_w base_h wm_w wm_h x y : ℤ) : Prop :=
  0 ≤ x ∧ 0 ≤ y ∧ x + wm_w ≤ base_w ∧ y + wm_h ≤ base_h

instance (base_w base_h wm_w wm_h x y : ℤ) :
    Decidable (insideBounds base_w base_h wm_w wm_h x y) := by
  unfold insideBounds; infer_instance

end AddWatermark

namespace AddWatermark

/-- C1: the per-pixel opacity-adjusted alpha is NOT round(a * opacity): at
a = 255, opacity = 0.5 the code computes int(127.5) = 127 while
round(127.5) = 128 (both under Python's banker rounding and half-up). -/
theorem alpha_not_round_counterexample :
    adjusted_alpha (1/2) 255 = 127 ∧ pyRound ((255 : ℚ) * (1/2)) = 128 ∧ (127 : ℤ) ≠ 128 := by
  refine ⟨?_, ?_, by decide⟩
  · unfold adjusted_alpha clamp8 pyInt
    norm_num [Int.floor_eq_iff]
  · unfold pyRound
    norm_num [Int.floor_eq_iff, show ⌊(255 : ℚ) * (1/2)⌋ = 127 by norm_num [Int.floor_eq_iff]]

/-- C1 (amended): for every 8-bit alpha sample a and opacity in [0.1, 1.0],
the opacity-adjusted alpha equals floor(a * opacity) — Python's int()
truncation, which agrees with floor on these nonnegative values — and the
8-bit clamp is a no-op since the value already lies in 0..255; in particular
a full-alpha sample (a = 255) yields floor(255 * opacity). -/
theorem alpha_truncation (opacity : ℚ) (a : ℕ) (ha : a ≤ 255)
    (h1 : 1/10 ≤ opacity) (h2 : opacity ≤ 1) :
    adjusted_alpha opacity a = ⌊(a : ℚ) * opacity⌋
    ∧ adjusted_alpha opacity 255 = ⌊(255 : ℚ) * opacity⌋ := by
  have key : ∀ b : ℕ, b ≤ 255 → adjusted_alpha opacity b = ⌊(b : ℚ) * opacity⌋ := by
    intro b hb
    have hop0 : (0 : ℚ) ≤ opacity := le_trans (by norm_num) h1
    have h0 : (0 : ℚ) ≤ (b : ℚ) * opacity :=
      mul_nonneg (Nat.cast_nonneg b) hop0
    have hub : (b : ℚ) * opacity ≤ 255 := by
      calc (b : ℚ) * opacity ≤ (b : ℚ) * 1 :=
            mul_le_mul_of_nonneg_left h2 (Nat.cast_nonneg b)
        _ = (b : ℚ) := mul_one _
        _ ≤ 255 := by exact_mod_cast hb
    have hfl0 : (0 : ℤ) ≤ ⌊(b : ℚ) * opacity⌋ := Int.floor_nonneg.mpr h0
    have hfl255 : ⌊(b : ℚ) * opacity⌋ ≤ 255 := by
      have := Int.floor_le_floor (α := ℚ) hub
      simpa using this
    unfold adjusted_alpha clamp8 pyInt
    rw [if_pos h0]
    omega
  exact ⟨key a ha, key 255 (by norm_num)⟩

theorem alpha_truncation_witness :
    adjusted_alpha (1/2) 200 = ⌊(200 : ℚ) * (1/2)⌋
    ∧ adjusted_alpha (1/2) 255 = ⌊(255 : ℚ) * (1/2)⌋ :=
  alpha_truncation (1/2) 200 (by norm_num) (by norm_num) (by norm_num)

/-- C2: the placement invariant fails on the code: with a 100×100 base image
(target_width = 0, so no resize), watermark ratio 1.0 and a square 50×50
watermark asset, the scaled watermark is 100×100 and the top-left anchor
(10, 10) pushes its bounding box past the right and bottom edges. -/
theorem placement_counterexample :
    resize_base 100 100 0 = (100, 100)
    ∧ watermark_width 1 0 100 = 100
    ∧ watermark_height 100 50 50 = 100
    ∧ position_map "左上" 100 100 100 100 = (10, 10)
    ∧ ¬ insideBounds 100 100 100 100 10 10 := by
  refine ⟨by norm_num [resize_base], ?_, ?_, by decide, by decide⟩
  · unfold watermark_width pyInt
    norm_num
  · unfold watermark_height pyInt
    norm_num

/-- C2 (amended): whenever the scaled watermark fits together with the 10-px
inset (wm_w + 10 ≤ base_w and wm_h + 10 ≤ base_h), every position tag — the
five anchors and any unrecognized tag — yields coordinates whose bounding box
lies fully inside the base image; without that proviso the box can extend
outside (see the counterexample). -/
theorem placement_inside_bounds (base_w base_h wm_w wm_h : ℤ) (p : String)
    (hw : wm_w + 10 ≤ base_w) (hh : wm_h + 10 ≤ base_h) :
    insideBounds base_w base_h wm_w wm_h
      (position_map p base_w base_h wm_w wm_h).1
      (position_map p base_w base_h wm_w wm_h).2 := by
  have hfw := Int.fdiv_eq_ediv (base_w - wm_w) (show (0:ℤ) ≤ 2 by norm_num)
  have hfh := Int.fdiv_eq_ediv (base_h - wm_h) (show (0:ℤ) ≤ 2 by norm_num)
  unfold position_map insideBounds
  split_ifs <;> refine ⟨by omega, by omega, by omega, by omega⟩

theorem placement_inside_bounds_witness :
    insideBounds 100 100 30 30
      (position_map "居中" 100 100 30 30).1
      (position_map "居中" 100 100 30 30).2 :=
  placement_inside_bounds 100 100 30 30 "居中" (by norm_num) (by norm_num)

/-- C3: the five anchors compute exactly the positions the claim lists —
10-px insets for the corners, floor-division centering for 居中 (center) —
and any unrecognized tag falls back to the top-left position (10, 10). -/
theorem anchor_positions (base_w base_h wm_w wm_h : ℤ) (p : String)
    (hp : p ∉ (["左上", "右上", "右下", "左下", "居中"] : List String)) :
    position_map "左上" base_w base_h wm_w wm_h = (10, 10)
    ∧ position_map "右上" base_w base_h wm_w wm_h = (base_w - wm_w - 10, 10)
    ∧ position_map "左下" base_w base_h wm_w wm_h = (10, base_h - wm_h - 10)
    ∧ position_map "右下" base_w base_h wm_w wm_h = (base_w - wm_w - 10, base_h - wm_h - 10)
    ∧ position_map "居中" base_w base_h wm_w wm_h
        = ((base_w - wm_w).fdiv 2, (base_h - wm_h).fdiv 2)
    ∧ position_map p base_w base_h wm_w wm_h = (10, 10) := by
  simp only [List.mem_cons, List.not_mem_nil, or_false, not_or] at hp
  obtain ⟨h1, h2, h3, h4, h5⟩ := hp
  refine ⟨by simp [position_map], by simp [position_map], by simp [position_map],
    by simp [position_map], by simp [position_map], ?_⟩
  simp [position_map, h1, h2, h3, h4, h5]

theorem anchor_positions_witness :
    position_map "左上" 640 480 64 48 = (10, 10)
    ∧ position_map "右上" 640 480 64 48 = (640 - 64 - 10, 10)
    ∧ position_map "左下" 640 480 64 48 = (10, 480 - 48 - 10)
    ∧ position_map "右下" 640 480 64 48 = (640 - 64 - 10, 480 - 48 - 10)
    ∧ position_map "居中" 640 480 64 48 = ((640 - 64 : ℤ).fdiv 2, (480 - 48 : ℤ).fdiv 2)
    ∧ position_map "somewhere" 640 480 64 48 = (10, 10) :=
  anchor_positions 640 480 64 48 "somewhere" (by decide)

/-- C4: the resized height is NOT round(N / (W/H)): with a 3×2 base image and
target width 100 the code computes int(100 / 1.5) = 66 while
round(100 / 1.5) = 67. -/
theorem resize_not_round_counterexample :
    resize_base 3 2 100 = (100, 66)
    ∧ pyRound ((100 : ℚ) / ((3 : ℚ) / 2)) = 67 ∧ (66 : ℤ) ≠ 67 := by
  have hfl : ⌊(100 : ℚ) / ((3 : ℚ) / 2)⌋ = 66 := by
    norm_num [Int.floor_eq_iff]
  refine ⟨?_, ?_, by decide⟩
  · unfold resize_base pyInt
    norm_num [hfl]
  · unfold pyRound
    rw [hfl]
    norm_num

/-- C4 (amended): resizing with target_width = 0 leaves the base dimensions
unchanged at W × H, and resizing with target_width = N > 0 yields width
exactly N and height floor(N / (W/H)) = floor(N·H/W) — Python's int()
truncation of the float quotient, not round(). -/
theorem resize_dimensions (w h n : ℕ) (hw : 0 < w) (hh : 0 < h) :
    resize_base w h 0 = ((w : ℤ), (h : ℤ))
    ∧ (0 < n → resize_base w h n = ((n : ℤ), ⌊(n * h : ℚ) / (w : ℚ)⌋)) := by
  constructor
  · simp [resize_base]
  · intro hn
    have hq : ((n : ℚ) / ((w : ℚ) / (h : ℚ))) = (n * h : ℚ) / (w : ℚ) := by
      rw [div_div_eq_mul_div]
    have h0 : (0 : ℚ) ≤ (n * h : ℚ) / (w : ℚ) := by positivity
    unfold resize_base pyInt
    rw [if_pos (by omega), hq, if_pos h0]

theorem resize_dimensions_witness :
    resize_base 3 2 0 = ((3 : ℤ), (2 : ℤ))
    ∧ (0 < 100 → resize_base 3 2 100 = ((100 : ℤ), ⌊(100 * 2 : ℚ) / (3 : ℚ)⌋)) :=
  resize_dimensions 3 2 100 (by norm_num) (by norm_num)

/-- Python str.lower(): lowercase each character (identity on non-letters and
on the CJK position tags). -/
def lowerStr (s : String) : String := ⟨s.data.map Char.toLower⟩

/-- Python str.upper(): uppercase each character. -/
def upperStr (s : String) : String := ⟨s.data.map Char.toUpper⟩

/-- Python s.endswith(t): t is a suffix of s. -/
def endsWithStr (s t : String) : Bool := t.data.isSuffixOf s.data

/-- Python f-string formatting `f"\x7bn:03d\x7d"` for a nonnegative index:
the decimal digits of n, zero-padded on the left to width 3. -/
def pad3 (n : ℕ) : String :=
  let s := toString n
  if s.length < 3 then ⟨List.replicate (3 - s.length) '0'⟩ ++ s else s

/-- AddWatermark.py lines 91-98: resolution of the output filename from the
naming prefix (`custom_name`), the input file's stem, the keep-original-name
flag, the 1-based file index and the output format tag. -/
def output_filename (custom_name stem : String) (keep_original_name : Bool)
    (file_index : ℕ) (output_format : String) : String :=
  if custom_name = "watermarked_image" then
    "watermarked_" ++ stem ++ "." ++ lowerStr output_format
  else if keep_original_name then
    custom_name ++ "_" ++ stem ++ "." ++ lowerStr output_format
  else
    custom_name ++ "_" ++ pad3 file_index ++ "." ++ lowerStr output_format

/-- Python enumerate(xs, start): pair each element with its index, counting
from `start`. -/
def enumerateFrom : ℕ → List String → List (ℕ × String)
  | _, [] => []
  | i, f :: fs => (i, f) :: enumerateFrom (i + 1) fs

/-- AddWatermark.py lines 609-610: the batch driver's file filter
`f.lower().endswith(('jpg', 'jpeg', 'png'))` — a suffix test on the whole
lowercased filename. -/
def is_image_file (f : String) : Bool :=
  endsWithStr (lowerStr f) "jpg" || endsWithStr (lowerStr f) "jpeg"
    || endsWithStr (lowerStr f) "png"

/-- AddWatermark.py lines 609-615: the list of (1-based index, filename)
pairs the batch driver hands to add_image_watermark, via
`enumerate(image_files, 1)` over the filtered directory listing. -/
def batch_files (files : List String) : List (ℕ × String) :=
  enumerateFrom 1 (files.filter is_image_file)

/-- The extension of a filename: the characters after the last '.', if the
name contains a dot (the part os.path.splitext returns after the dot). -/
def extAfterLastDot : List Char → Option (List Char)
  | [] => none
  | c :: rest =>
    match extAfterLastDot rest with
    | some e => some e
    | none => if c = '.' then some rest else none

theorem extAfterLastDot_suffix (l e : List Char) (h : extAfterLastDot l = some e) :
    e <:+ l := by
  induction l with
  | nil => simp [extAfterLastDot] at h
  | cons c rest ih =>
    unfold extAfterLastDot at h
    cases hrest : extAfterLastDot rest with
    | some e₂ =>
      rw [hrest] at h
      injection h with h
      subst h
      exact (ih hrest).trans (List.suffix_cons c rest)
    | none =>
      rw [hrest] at h
      split_ifs at h
      injection h with h
      subst h
      exact List.suffix_cons c rest

theorem enumerateFrom_map_fst (l : List String) (s : ℕ) :
    (enumerateFrom s l).map Prod.fst = List.range' s l.length := by
  induction l generalizing s with
  | nil => simp [enumerateFrom]
  | cons f fs ih => simp [enumerateFrom, List.range', ih]

theorem enumerateFrom_map_snd (l : List String) (s : ℕ) :
    (enumerateFrom s l).map Prod.snd = l := by
  induction l generalizing s with
  | nil => simp [enumerateFrom]
  | cons f fs ih => simp [enumerateFrom, ih]

/-- C6: the output filename is `watermarked_<stem>.<ext>` when the naming
prefix equals the sentinel "watermarked_image"; `<custom>_<stem>.<ext>` when
keep-original-name is set; `<custom>_<3-digit zero-padded index>.<ext>`
otherwise; and the batch driver numbers files 1, 2, ..., n (so the first
processed file gets index 1, padded to "001"). -/
theorem output_naming (custom stem fmt : String) (idx : ℕ) (files : List String)
    (hne : custom ≠ "watermarked_image") :
    output_filename "watermarked_image" stem true idx fmt
      = "watermarked_" ++ stem ++ "." ++ lowerStr fmt
    ∧ output_filename "watermarked_image" stem false idx fmt
      = "watermarked_" ++ stem ++ "." ++ lowerStr fmt
    ∧ output_filename custom stem true idx fmt
      = custom ++ "_" ++ stem ++ "." ++ lowerStr fmt
    ∧ output_filename custom stem false idx fmt
      = custom ++ "_" ++ pad3 idx ++ "." ++ lowerStr fmt
    ∧ pad3 1 = "001"
    ∧ (enumerateFrom 1 files).map Prod.fst = List.range' 1 files.length := by
  refine ⟨by simp [output_filename], by simp [output_filename],
    by simp [output_filename, hne], by simp [output_filename, hne],
    by decide, enumerateFrom_map_fst files 1⟩

theorem output_naming_witness :
    output_filename "watermarked_image" "cat" true 1 "PNG"
      = "watermarked_" ++ "cat" ++ "." ++ lowerStr "PNG"
    ∧ output_filename "watermarked_image" "cat" false 1 "PNG"
      = "watermarked_" ++ "cat" ++ "." ++ lowerStr "PNG"
    ∧ output_filename "trip" "cat" true 1 "PNG"
      = "trip" ++ "_" ++ "cat" ++ "." ++ lowerStr "PNG"
    ∧ output_filename "trip" "cat" false 1 "PNG"
      = "trip" ++ "_" ++ pad3 1 ++ "." ++ lowerStr "PNG"
    ∧ pad3 1 = "001"
    ∧ (enumerateFrom 1 ["a.jpg", "b.jpg"]).map Prod.fst = List.range' 1 2 :=
  output_naming "trip" "cat" "PNG" 1 ["a.jpg", "b.jpg"] (by decide)

/-- C9: the batch driver's filter is not an extension test: "a.xpng" has
extension "xpng", which is not among jpg/jpeg/png, yet the suffix test
`f.lower().endswith(('jpg', 'jpeg', 'png'))` accepts it, so the file is
processed. -/
theorem batch_filter_counterexample :
    is_image_file "a.xpng" = true
    ∧ extAfterLastDot (lowerStr "a.xpng").data = some "xpng".data
    ∧ "xpng" ∉ (["jpg", "jpeg", "png"] : List String) := by
  refine ⟨by decide, by decide, by decide⟩

/-- C9 (amended): the batch driver processes exactly the files whose
lowercased name ends with the string "jpg", "jpeg" or "png" — a suffix test
on the whole name, which accepts every file whose extension is jpg/jpeg/png
case-insensitively but also names like "a.xpng" — and pairs the k-th selected
file with sequence index k, starting at 1. -/
theorem batch_file_selection (files : List String) (f : String) (e : List Char)
    (hext : extAfterLastDot (lowerStr f).data = some e)
    (he : e = "jpg".data ∨ e = "jpeg".data ∨ e = "png".data) :
    is_image_file f = true
    ∧ (batch_files files).map Prod.snd = files.filter is_image_file
    ∧ (batch_files files).map Prod.fst
        = List.range' 1 (files.filter is_image_file).length := by
  refine ⟨?_, enumerateFrom_map_snd _ 1, enumerateFrom_map_fst _ 1⟩
  have hsuf : e <:+ (lowerStr f).data := extAfterLastDot_suffix _ _ hext
  unfold is_image_file endsWithStr
  rcases he with h | h | h <;> subst h <;>
    simp [List.isSuffixOf_iff_suffix, hsuf]

theorem batch_file_selection_witness :
    is_image_file "B.JPeG" = true
    ∧ (batch_files ["B.JPeG", "c.txt", "d.png"]).map Prod.snd
        = (["B.JPeG", "c.txt", "d.png"] : List String).filter is_image_file
    ∧ (batch_files ["B.JPeG", "c.txt", "d.png"]).map Prod.fst
        = List.range' 1 ((["B.JPeG", "c.txt", "d.png"] : List String).filter is_image_file).length :=
  batch_file_selection ["B.JPeG", "c.txt", "d.png"] "B.JPeG" "jpeg".data
    (by decide) (Or.inr (Or.inl rfl))

/-- Python exception values as they occur in add_image_watermark:
ValueError (line 138), errors raised by the image library (decode, resize,
encode), and RuntimeError (line 144). `errMsg` is Python's str(e). -/
inductive PyError where
  | valueError (msg : String)
  | imageError (msg : String)
  | runtimeError (msg : String)
deriving DecidableEq

def errMsg : PyError → String
  | .valueError m => m
  | .imageError m => m
  | .runtimeError m => m

/-- The keyword arguments assembled for Image.save in one branch of the
dispatch at AddWatermark.py lines 103-138, together with the mode conversion
(`convert('RGB')`) performed before saving.  A field is `none` when the
corresponding branch does not pass that keyword. -/
structure SaveParams where
  fileFormat : String
  convertedToRGB : Bool
  quality : Option ℕ
  optimize : Option Bool
  subsampling : Option ℕ
  progressive : Option Bool
  dpi : Option (ℕ × ℕ)
  qtables : Option String
  compressLevel : Option ℕ
  compression : Option String
  lossless : Option Bool
deriving DecidableEq

/-- AddWatermark.py lines 103-138: the format dispatch.  JPG/JPEG converts to
RGB and saves as JPEG with quality/optimize/subsampling/progressive/dpi and
an optional qtables entry; PNG converts to RGB only when png_transparency is
false; TIFF and WEBP never convert; any other tag raises
ValueError("不支持的输出格式: ..."). -/
def encode_dispatch (output_format : String) (compression_level jpeg_quality
    jpeg_subsampling dpi : ℕ) (jpeg_progressive : Bool) (jpeg_qtables : String)
    (png_optimize png_transparency : Bool) (tiff_compression : String)
    (webp_lossless : Bool) : Except PyError SaveParams :=
  if upperStr output_format ∈ (["JPG", "JPEG"] : List String) then
    .ok { fileFormat := "JPEG", convertedToRGB := true,
          quality := some jpeg_quality, optimize := some true,
          subsampling := some jpeg_subsampling,
          progressive := some jpeg_progressive, dpi := some (dpi, dpi),
          qtables := if jpeg_qtables ≠ "" then some jpeg_qtables else none,
          compressLevel := none, compression := none, lossless := none }
  else if upperStr output_format = "PNG" then
    .ok { fileFormat := "PNG", convertedToRGB := !png_transparency,
          quality := none, optimize := some png_optimize, subsampling := none,
          progressive := none, dpi := some (dpi, dpi), qtables := none,
          compressLevel := some compression_level, compression := none,
          lossless := none }
  else if upperStr output_format = "TIFF" then
    .ok { fileFormat := "TIFF", convertedToRGB := false, quality := none,
          optimize := none, subsampling := none, progressive := none,
          dpi := some (dpi, dpi), qtables := none, compressLevel := none,
          compression := some tiff_compression, lossless := none }
  else if upperStr output_format = "WEBP" then
    .ok { fileFormat := "WEBP", convertedToRGB := false,
          quality := some jpeg_quality, optimize := none, subsampling := none,
          progressive := none, dpi := some (dpi, dpi), qtables := none,
          compressLevel := none, compression := none,
          lossless := some webp_lossless }
  else .error (.valueError ("不支持的输出格式: " ++ output_format))

/-- The body of the try block at AddWatermark.py lines 55-141, with the
fallible image-library operations abstracted as Except-valued steps executed
in source order: decode the base image, resize it, decode the watermark,
composite, run the format dispatch, write the file, return the output path. -/
def pipeline_body (decodeBase resizeStep decodeWatermark compositeStep : Except PyError Unit)
    (encodeResult : Except PyError SaveParams)
    (writeStep : SaveParams → Except PyError Unit) (outPath : String) :
    Except PyError String := do
  decodeBase
  resizeStep
  decodeWatermark
  compositeStep
  let p ← encodeResult
  writeStep p
  pure outPath

/-- AddWatermark.py lines 55-144: the try/except wrapper.  Any exception e
escaping the body is re-raised as RuntimeError("处理图片时出错：" + str(e)). -/
def add_image_watermark_result (decodeBase resizeStep decodeWatermark
    compositeStep : Except PyError Unit) (encodeResult : Except PyError SaveParams)
    (writeStep : SaveParams → Except PyError Unit) (outPath : String) :
    Except PyError String :=
  match pipeline_body decodeBase resizeStep decodeWatermark compositeStep
      encodeResult writeStep outPath with
  | .ok p => .ok p
  | .error e => .error (.runtimeError ("处理图片时出错：" ++ errMsg e))

/-- AddWatermark.py lines 612-641: the per-file loop.  Each file is run under
its own try/except; a failure is logged and the loop continues, and
processed_count is incremented only on success. -/
def batch_loop (files : List String) (run : String → Except PyError String) : ℕ :=
  files.foldl (fun acc f => match run f with | .ok _ => acc + 1 | .error _ => acc) 0

def runSucceeds (run : String → Except PyError String) (f : String) : Bool :=
  match run f with | .ok _ => true | .error _ => false

theorem batch_loop_foldl (files : List String) (run : String → Except PyError String)
    (acc : ℕ) :
    files.foldl (fun a f => match run f with | .ok _ => a + 1 | .error _ => a) acc
      = acc + (files.filter (runSucceeds run)).length := by
  induction files generalizing acc with
  | nil => simp
  | cons f fs ih =>
    simp only [List.foldl_cons, List.filter_cons]
    cases h : run f with
    | ok v =>
      have hs : runSucceeds run f = true := by simp [runSucceeds, h]
      simp only [h, hs, if_true]
      rw [ih, List.length_cons]
      ring
    | error e =>
      have hs : runSucceeds run f = false := by simp [runSucceeds, h]
      simp only [h, hs]
      rw [ih]
      simp

/-- C5: whenever the try-block body fails with an exception e — at decode,
resize, composite or encode — add_image_watermark surfaces exactly one
RuntimeError whose message embeds str(e) (the original cause), and the batch
loop, whose per-file try/except swallows these errors, still processes every
file: its success count equals the number of files whose run succeeds,
regardless of where failures occur in the list. -/
theorem error_wrapping_and_batch_continues (decodeBase resizeStep decodeWatermark
    compositeStep : Except PyError Unit) (encodeResult : Except PyError SaveParams)
    (writeStep : SaveParams → Except PyError Unit) (outPath : String) (e : PyError)
    (hfail : pipeline_body decodeBase resizeStep decodeWatermark compositeStep
      encodeResult writeStep outPath = .error e)
    (files : List String) (run : String → Except PyError String) :
    add_image_watermark_result decodeBase resizeStep decodeWatermark compositeStep
        encodeResult writeStep outPath
      = .error (.runtimeError ("处理图片时出错：" ++ errMsg e))
    ∧ batch_loop files run = (files.filter (runSucceeds run)).length := by
  constructor
  · unfold add_image_watermark_result
    rw [hfail]
  · unfold batch_loop
    rw [batch_loop_foldl]
    simp

theorem error_wrapping_and_batch_continues_witness :
    add_image_watermark_result (.error (.imageError "cannot identify image file"))
        (.ok ()) (.ok ()) (.ok ())
        (encode_dispatch "PNG" 6 95 0 300 false "" true true "tiff_lzw" false)
        (fun _ => .ok ()) "out/watermarked_a.png"
      = .error (.runtimeError ("处理图片时出错：" ++ errMsg (.imageError "cannot identify image file")))
    ∧ batch_loop ["a.jpg", "b.jpg"] (fun _ => .error (.imageError "boom"))
      = ((["a.jpg", "b.jpg"] : List String).filter
          (runSucceeds (fun _ => .error (.imageError "boom")))).length :=
  error_wrapping_and_batch_continues (.error (.imageError "cannot identify image file"))
    (.ok ()) (.ok ()) (.ok ())
    (encode_dispatch "PNG" 6 95 0 300 false "" true true "tiff_lzw" false)
    (fun _ => .ok ()) "out/watermarked_a.png" (.imageError "cannot identify image file")
    rfl ["a.jpg", "b.jpg"] (fun _ => .error (.imageError "boom"))

/-- C7: an unsupported output format does NOT surface as an error distinct
from the RuntimeError wrapper: with format "BMP" and every image operation
succeeding, add_image_watermark raises the very same
RuntimeError("处理图片时出错：...") constructor that a decode failure produces —
the inner ValueError of line 138 is swallowed by the catch-all of line 142. -/
theorem unsupported_format_counterexample :
    add_image_watermark_result (.ok ()) (.ok ()) (.ok ()) (.ok ())
        (encode_dispatch "BMP" 6 95 0 300 false "" true true "tiff_lzw" false)
        (fun _ => .ok ()) "out"
      = .error (.runtimeError "处理图片时出错：不支持的输出格式: BMP")
    ∧ add_image_watermark_result (.error (.imageError "decode failed")) (.ok ())
        (.ok ()) (.ok ())
        (encode_dispatch "PNG" 6 95 0 300 false "" true true "tiff_lzw" false)
        (fun _ => .ok ()) "out"
      = .error (.runtimeError "处理图片时出错：decode failed") := by
  refine ⟨rfl, rfl⟩

/-- C7 (amended): for every output format tag whose uppercase form is not one
of JPG, JPEG, PNG, TIFF, WEBP, the format dispatch raises
ValueError("不支持的输出格式: <tag>"), but that error is caught by the same
catch-all as every other failure, so add_image_watermark surfaces it as the
generic RuntimeError wrapper — distinguishable from decode/resize/encode
failures only by message, not by exception type. -/
theorem unsupported_format_wrapped (fmt : String)
    (hfmt : upperStr fmt ∉ (["JPG", "JPEG", "PNG", "TIFF", "WEBP"] : List String))
    (compression_level jpeg_quality jpeg_subsampling dpi : ℕ)
    (jpeg_progressive : Bool) (jpeg_qtables : String)
    (png_optimize png_transparency : Bool) (tiff_compression : String)
    (webp_lossless : Bool) (writeStep : SaveParams → Except PyError Unit)
    (outPath : String) :
    encode_dispatch fmt compression_level jpeg_quality jpeg_subsampling dpi
        jpeg_progressive jpeg_qtables png_optimize png_transparency
        tiff_compression webp_lossless
      = .error (.valueError ("不支持的输出格式: " ++ fmt))
    ∧ add_image_watermark_result (.ok ()) (.ok ()) (.ok ()) (.ok ())
        (encode_dispatch fmt compression_level jpeg_quality jpeg_subsampling dpi
          jpeg_progressive jpeg_qtables png_optimize png_transparency
          tiff_compression webp_lossless)
        writeStep outPath
      = .error (.runtimeError ("处理图片时出错：不支持的输出格式: " ++ fmt)) := by
  simp only [List.mem_cons, List.not_mem_nil, or_false, not_or] at hfmt
  obtain ⟨h1, h2, h3, h4, h5⟩ := hfmt
  have henc : encode_dispatch fmt compression_level jpeg_quality jpeg_subsampling dpi
      jpeg_progressive jpeg_qtables png_optimize png_transparency
      tiff_compression webp_lossless
      = .error (.valueError ("不支持的输出格式: " ++ fmt)) := by
    unfold encode_dispatch
    simp [h1, h2, h3, h4, h5]
  refine ⟨henc, ?_⟩
  unfold add_image_watermark_result pipeline_body
  rw [henc]
  rfl

theorem unsupported_format_wrapped_witness :
    encode_dispatch "gif" 6 95 0 300 false "" true true "tiff_lzw" false
      = .error (.valueError ("不支持的输出格式: " ++ "gif"))
    ∧ add_image_watermark_result (.ok ()) (.ok ()) (.ok ()) (.ok ())
        (encode_dispatch "gif" 6 95 0 300 false "" true true "tiff_lzw" false)
        (fun _ => .ok ()) "out"
      = .error (.runtimeError ("处理图片时出错：不支持的输出格式: " ++ "gif")) :=
  unsupported_format_wrapped "gif" (by decide) 6 95 0 300 false "" true true
    "tiff_lzw" false (fun _ => .ok ()) "out"

/-- C8: JPG/JPEG output always converts the composited image to RGB
(dropping alpha) regardless of the png_transparency flag, and PNG output
converts to RGB exactly when png_transparency is disabled. -/
theorem rgb_conversion (fmt : String) (compression_level jpeg_quality
    jpeg_subsampling dpi : ℕ) (jpeg_progressive : Bool) (jpeg_qtables : String)
    (png_optimize png_transparency : Bool) (tiff_compression : String)
    (webp_lossless : Bool) :
    (upperStr fmt ∈ (["JPG", "JPEG"] : List String) →
      (encode_dispatch fmt compression_level jpeg_quality jpeg_subsampling dpi
          jpeg_progressive jpeg_qtables png_optimize png_transparency
          tiff_compression webp_lossless).map SaveParams.convertedToRGB
        = .ok true)
    ∧ (upperStr fmt = "PNG" →
      (encode_dispatch fmt compression_level jpeg_quality jpeg_subsampling dpi
          jpeg_progressive jpeg_qtables png_optimize png_transparency
          tiff_compression webp_lossless).map SaveParams.convertedToRGB
        = .ok (!png_transparency)) := by
  constructor
  · intro hmem
    unfold encode_dispatch
    rw [if_pos hmem]
    rfl
  · intro hpng
    have hmem : upperStr fmt ∉ (["JPG", "JPEG"] : List String) := by
      rw [hpng]; decide
    unfold encode_dispatch
    rw [if_neg hmem, if_pos hpng]
    rfl

theorem rgb_conversion_witness :
    (upperStr "jpg" ∈ (["JPG", "JPEG"] : List String) →
      (encode_dispatch "jpg" 6 95 0 300 false "" true true "tiff_lzw"
          false).map SaveParams.convertedToRGB = .ok true)
    ∧ (upperStr "jpg" = "PNG" →
      (encode_dispatch "jpg" 6 95 0 300 false "" true true "tiff_lzw"
          false).map SaveParams.convertedToRGB = .ok (!true)) :=
  rgb_conversion "jpg" 6 95 0 300 false "" true true "tiff_lzw" false

/-- C10: the WEBP branch passes the jpeg_quality argument as the encoder's
quality value — the same argument the JPEG branch uses — so there is no
independent WebP quality setting. -/
theorem webp_quality_is_jpeg_quality (fmt : String) (compression_level
    jpeg_quality jpeg_subsampling dpi : ℕ) (jpeg_progressive : Bool)
    (jpeg_qtables : String) (png_optimize png_transparency : Bool)
    (tiff_compression : String) (webp_lossless : Bool)
    (hfmt : upperStr fmt = "WEBP") :
    (encode_dispatch fmt compression_level jpeg_quality jpeg_subsampling dpi
        jpeg_progressive jpeg_qtables png_optimize png_transparency
        tiff_compression webp_lossless).map SaveParams.quality
      = .ok (some jpeg_quality)
    ∧ (encode_dispatch "JPEG" compression_level jpeg_quality jpeg_subsampling dpi
        jpeg_progressive jpeg_qtables png_optimize png_transparency
        tiff_compression webp_lossless).map SaveParams.quality
      = .ok (some jpeg_quality) := by
  constructor
  · unfold encode_dispatch
    rw [if_neg (by rw [hfmt]; decide), if_neg (by rw [hfmt]; decide),
      if_neg (by rw [hfmt]; decide), if_pos hfmt]
    rfl
  · rfl

theorem webp_quality_is_jpeg_quality_witness :
    (encode_dispatch "WebP" 6 80 0 300 false "" true true "tiff_lzw"
        true).map SaveParams.quality = .ok (some 80)
    ∧ (encode_dispatch "JPEG" 6 80 0 300 false "" true true "tiff_lzw"
        true).map SaveParams.quality = .ok (some 80) :=
  webp_quality_is_jpeg_quality "WebP" 6 80 0 300 false "" true true "tiff_lzw"
    true (by decide)

end AddWatermark
